import Mathlib

/-!
Verification development for nixops/resources/vpc.py (class VPCState, the
AWS VPC resource). The Python methods are embedded shallowly: the mutable
StateDict plus the relevant instance attributes become the record St, each
method becomes a function in a state-and-trace monad M, and the provider
(boto3 EC2 client) becomes an explicit Provider record of response values.
Exceptions are modelled with Except; a raised error carries no rollback, so
the state at the point of the raise is preserved in the Outcome, exactly as
in Python. Every provider call and every persisted write is recorded in a
trace, with writes tagged by whether they happen inside a transactional
block (the Python construct that opens self.depl._db as a context).
-/

namespace NixopsVpc

/-- Lifecycle status stored under the attr property named state. The integer
constants MISSING, STARTING, UP come from nixops.resources.ResourceState,
outside this file; only their distinctness matters, so they are an enum. -/
inductive LState
  | missing
  | starting
  | up
deriving DecidableEq, Repr

/-- Persisted StateDict contents plus the non-persisted instance attributes.
One field per distinct string key appearing in vpc.py. The keys
enableDnsHostname and enableDnsHostnames are distinct strings in the source
(the first is written only by the destroy path, the second only by the dns
handler), hence distinct fields here; likewise enableClassicLink and
enableVpcClassicLink. The fields client and vpc_id model the plain Python
attributes self._client (presence of a connected client) and self.vpc_id;
they are not persisted keys. -/
structure St where
  state : LState
  vpcId : Option String
  region : Option String
  cidrBlock : Option String
  instanceTenancy : Option String
  enableDnsSupport : Option Bool
  enableDnsHostname : Option Bool
  enableDnsHostnames : Option Bool
  enableClassicLink : Option Bool
  enableVpcClassicLink : Option Bool
  amazonProvidedIpv6CidrBlock : Option Bool
  associationId : Option String
  client : Bool
  vpc_id : Option String
deriving DecidableEq, Repr

/-- Desired configuration for the handlers, as read through get_defn. -/
structure Config where
  region : String
  cidrBlock : String
  instanceTenancy : String
  enableDnsSupport : Bool
  enableDnsHostnames : Bool
  enableClassicLink : Bool
  amazonProvidedIpv6CidrBlock : Bool
deriving DecidableEq, Repr

/-- Trace events: a provider API call, a bare persisted-state write done
outside any transactional block, or a transactional block committing the
named fields together. -/
inductive Event
  | write (field : String)
  | txn (fields : List String)
  | call (apiName : String)
deriving DecidableEq, BEq, Repr

/-- Errors raised by the embedded code. nameError models the Python
NameError raised because vpc.py calls time.sleep without importing time;
typeErrorNoneAssociation models the TypeError raised by subscripting the
None returned by lookup_association; connectAssertFailed models the assert
on the region key in connect; outOfPolls is the modelling artifact for a
poll script that ends while the while True loop would keep polling. -/
inductive VpcError
  | recreateRequired (vpcId : Option String)
  | unexpectedVpcState (vpcId : Option String) (observed : String)
  | unexpectedAssocState (assocId : String) (observed : String)
  | vpcNotFound (vpcId : Option String)
  | providerError (code : String)
  | nameError (missingName : String)
  | typeErrorNoneAssociation (assocId : String)
  | connectAssertFailed
  | outOfPolls
deriving DecidableEq, Repr

/-- Helper to render an optional identifier inside a message. -/
def optStr : Option String → String
  | some s => s
  | none => "None"

/-- Human-readable message of each error, following the format strings of
the source (contractions in the source text are spelled out). The not-found
message ends with the directive to run a deploy with --check, as at lines
156 and 240 of vpc.py. -/
def VpcError.message : VpcError → String
  | .recreateRequired v =>
      "vpc " ++ optStr v ++ " definition changed and it needs to be recreated " ++
        "use --allow-recreate if you want to create a new one"
  | .unexpectedVpcState v observed =>
      "vpc " ++ optStr v ++ " is in an unexpected state " ++ observed
  | .unexpectedAssocState aid observed =>
      "ipv6 cidr block association " ++ aid ++ " is in an unexpected state " ++ observed
  | .vpcNotFound v =>
      "could not find vpc " ++ optStr v ++ ", please run a deploy with --check"
  | .providerError code => "ClientError: " ++ code
  | .nameError n => "NameError: name " ++ n ++ " is not defined"
  | .typeErrorNoneAssociation aid =>
      "TypeError: NoneType is not subscriptable while waiting on " ++ aid
  | .connectAssertFailed => "AssertionError: region is not set"
  | .outOfPolls => "poll script exhausted"

deriving instance DecidableEq for Except

/-- Result of running an embedded method from a given state: the final
state (the state at the raise point when result is an error), the trace of
provider calls and persisted writes, and the returned value or error. -/
structure Outcome (α : Type) where
  st : St
  trace : List Event
  result : Except VpcError α
deriving Repr, DecidableEq

/-- The embedding monad: state passing plus trace accumulation plus
exceptions whose propagation keeps the state and trace so far. -/
def M (α : Type) : Type := St → Outcome α

def M.pure (a : α) : M α := fun s => ⟨s, [], .ok a⟩

def M.bind (x : M α) (f : α → M β) : M β := fun s =>
  match x s with
  | ⟨s1, t1, .error e⟩ => ⟨s1, t1, .error e⟩
  | ⟨s1, t1, .ok a⟩ =>
    let o2 := f a s1
    ⟨o2.st, t1 ++ o2.trace, o2.result⟩

instance : Monad M where
  pure := M.pure
  bind := M.bind

/-- Read the current state. -/
def getS : M St := fun s => ⟨s, [], .ok s⟩

/-- Update a non-persisted instance attribute (no write event). -/
def modifySt (f : St → St) : M Unit := fun s => ⟨f s, [], .ok ()⟩

/-- A persisted-state write performed outside any transactional block. -/
def bareWrite (field : String) (f : St → St) : M Unit :=
  fun s => ⟨f s, [Event.write field], .ok ()⟩

/-- A transactional block committing the given fields together. -/
def txnWrite (fields : List String) (f : St → St) : M Unit :=
  fun s => ⟨f s, [Event.txn fields], .ok ()⟩

/-- A provider API call. -/
def provCall (apiName : String) : M Unit := fun s => ⟨s, [Event.call apiName], .ok ()⟩

/-- Raise an exception; state and trace so far are preserved by bind. -/
def raiseE (e : VpcError) : M α := fun s => ⟨s, [], .error e⟩

@[simp] theorem M_bind_apply (x : M α) (f : α → M β) (s : St) :
    (x >>= f) s =
      match x s with
      | ⟨s1, t1, .error e⟩ => ⟨s1, t1, .error e⟩
      | ⟨s1, t1, .ok a⟩ => ⟨(f a s1).st, t1 ++ (f a s1).trace, (f a s1).result⟩ := by
  show M.bind x f s = _
  unfold M.bind
  rcases x s with ⟨s1, t1, r⟩
  cases r <;> rfl

@[simp] theorem M_pure_apply (a : α) (s : St) :
    (Pure.pure a : M α) s = ⟨s, [], .ok a⟩ := rfl

@[simp] theorem getS_apply (s : St) : getS s = ⟨s, [], .ok s⟩ := rfl

@[simp] theorem modifySt_apply (f : St → St) (s : St) :
    modifySt f s = ⟨f s, [], .ok ()⟩ := rfl

@[simp] theorem bareWrite_apply (field : String) (f : St → St) (s : St) :
    bareWrite field f s = ⟨f s, [Event.write field], .ok ()⟩ := rfl

@[simp] theorem txnWrite_apply (fields : List String) (f : St → St) (s : St) :
    txnWrite fields f s = ⟨f s, [Event.txn fields], .ok ()⟩ := rfl

@[simp] theorem provCall_apply (apiName : String) (s : St) :
    provCall apiName s = ⟨s, [Event.call apiName], .ok ()⟩ := rfl

@[simp] theorem raiseE_apply (e : VpcError) (s : St) :
    (raiseE e : M α) s = ⟨s, [], .error e⟩ := rfl

/-- Result of the delete_vpc provider call: success, the recoverable
InvalidVpcID.NotFound client error, or any other client error code. -/
inductive DeleteResult
  | ok
  | notFound
  | otherError (code : String)
deriving DecidableEq, Repr

/-- Result of the describe_vpcs call made by the check pass in
ensure_state_up. -/
inductive DescribeResult
  | ok
  | notFound
  | otherError (code : String)
deriving DecidableEq, Repr

/-- One entry of an Ipv6CidrBlockAssociationSet in a describe response. -/
structure Assoc where
  associationId : String
  state : String
  ipv6CidrBlock : String
deriving DecidableEq, Repr

/-- The provider environment: responses of the boto3 EC2 client. vpcPolls
scripts the successive describe_vpcs responses seen by
wait_for_vpc_available, each response being the list of State values of the
returned Vpcs; ipv6Polls scripts the responses seen by
wait_for_ipv6_cidr_association, each response being the list of returned
Vpcs, each carrying its Ipv6CidrBlockAssociationSet. assocId is the
AssociationId of the associate_vpc_cidr_block response. -/
structure Provider where
  deleteVpc : Option String → DeleteResult
  createVpc : String → String → String
  checkDescribe : String → DescribeResult
  vpcPolls : List (List String)
  assocId : String
  ipv6Polls : List (List (List Assoc))

namespace VPCState

/-- Model of VPCState.connect: a no-op when a client is already present,
otherwise asserts that the region key is set and establishes the client.
Credential fetching and session construction are external collaborators
with no effect on the verified state. -/
def connect : M Unit := do
  let s ← getS
  if s.client then pure ()
  else if s.region = none then raiseE .connectAssertFailed
  else modifySt (fun s => { s with client := true })

/-- Model of VPCState._destroy (vpc.py lines 82 to 102): early return
unless the status is UP; otherwise connect, call delete_vpc (absorbing the
InvalidVpcID.NotFound error with a warning, re-raising any other client
error), then commit in one transactional block: status MISSING and the keys
vpcId, region, cidrBlock, instanceTenancy, enableDnsSupport,
enableDnsHostname, enableVpcClassicLink all set to None, exactly the key
strings of the source. -/
def _destroy (p : Provider) : M Unit := do
  let s ← getS
  if s.state = .up then
    connect
    provCall "delete_vpc"
    match p.deleteVpc s.vpcId with
    | .otherError code => raiseE (.providerError code)
    | _ => pure ()
    txnWrite ["state", "vpcId", "region", "cidrBlock", "instanceTenancy",
              "enableDnsSupport", "enableDnsHostname", "enableVpcClassicLink"]
      (fun s => { s with
        state := .missing
        vpcId := none
        region := none
        cidrBlock := none
        instanceTenancy := none
        enableDnsSupport := none
        enableDnsHostname := none
        enableVpcClassicLink := none })
  else
    pure ()

/-- Model of VPCState.wait_for_vpc_available (lines 142 to 160), the while
True poll loop, run against a finite script of describe_vpcs responses.
A response with exactly one vpc whose State is available breaks the loop,
after which the status is committed to UP in a transactional block; a State
other than available and pending raises the unexpected-state exception
carrying the observed value; a pending State reaches time.sleep(1), which
raises NameError because vpc.py never imports time, so the recursive
continuation after it is dead code; a response without exactly one vpc
raises the exception whose message directs the caller to run a deploy with
--check, reading the vpcId key of the persisted state as the source does. -/
def wait_for_vpc_available (vpc_id : Option String) : List (List String) → M Unit
  | [] => raiseE .outOfPolls
  | r :: rest => do
    provCall "describe_vpcs"
    match r with
    | [stv] =>
      if stv = "available" then
        txnWrite ["state"] (fun s => { s with state := .up })
      else if stv ≠ "pending" then
        raiseE (.unexpectedVpcState vpc_id stv)
      else do
        raiseE (.nameError "time")
        wait_for_vpc_available vpc_id rest
    | _ => do
      let s ← getS
      raiseE (.vpcNotFound s.vpcId)

/-- Modelled from the spec: update_tags_using is defined on EC2CommonState,
which is not part of this source tree; the spec treats provider tag
operations as an external collaborator. Modelled as the single provider
tag-creation call issued through the local tag_updater closure, with no
persisted-state writes. -/
def update_tags_using : M Unit := provCall "create_tags"

/-- Model of VPCState.realize_create_vpc (lines 162 to 193). When the
status is UP it either raises the recreate-required exception (message
built from the vpc_id attribute) if allow_recreate is not granted, or
destroys the old vpc and drops the client. It then writes the region key
outside any transactional block (line 173), connects, calls create_vpc
obtaining the new identifier, records it in the vpc_id attribute, commits
status STARTING together with vpcId, region, cidrBlock, instanceTenancy in
one transactional block, updates tags, and waits for availability. -/
def realize_create_vpc (p : Provider) (config : Config) (allow_recreate : Bool) :
    M Unit := do
  let s ← getS
  if s.state = .up then
    if !allow_recreate then
      raiseE (.recreateRequired s.vpc_id)
    else do
      _destroy p
      modifySt (fun s => { s with client := false })
  else
    pure ()
  bareWrite "region" (fun s => { s with region := some config.region })
  connect
  provCall "create_vpc"
  let newId := p.createVpc config.cidrBlock config.instanceTenancy
  modifySt (fun s => { s with vpc_id := some newId })
  txnWrite ["state", "vpcId", "region", "cidrBlock", "instanceTenancy"]
    (fun s => { s with
      state := .starting
      vpcId := some newId
      region := some config.region
      cidrBlock := some config.cidrBlock
      instanceTenancy := some config.instanceTenancy })
  update_tags_using
  let s2 ← getS
  wait_for_vpc_available s2.vpc_id p.vpcPolls

/-- Model of VPCState.realize_classic_link_change (lines 195 to 203):
enable classic link when configured on; when configured off, disable it
only if the persisted enableClassicLink key is truthy; in all cases commit
the configured value to the enableClassicLink key in one transactional
block. -/
def realize_classic_link_change (config : Config) (allow_recreate : Bool) :
    M Unit := do
  connect
  if config.enableClassicLink then
    provCall "enable_vpc_classic_link"
  else do
    let s ← getS
    if s.enableClassicLink = some true then
      provCall "disable_vpc_classic_link"
    else
      pure ()
  txnWrite ["enableClassicLink"]
    (fun s => { s with enableClassicLink := some config.enableClassicLink })

/-- Model of VPCState.realize_dns_config (lines 205 to 218): two
modify_vpc_attribute calls, then one transactional block committing the
enableDnsSupport and enableDnsHostnames keys. -/
def realize_dns_config (config : Config) (allow_recreate : Bool) : M Unit := do
  connect
  provCall "modify_vpc_attribute"
  provCall "modify_vpc_attribute"
  txnWrite ["enableDnsSupport", "enableDnsHostnames"]
    (fun s => { s with
      enableDnsSupport := some config.enableDnsSupport
      enableDnsHostnames := some config.enableDnsHostnames })

/-- Model of the local lookup_association closure (lines 221 to 224):
first association of the set with the sought id, if any. -/
def lookup_association (association_id : String) (association_set : List Assoc) :
    Option Assoc :=
  association_set.find? (fun a => a.associationId == association_id)

/-- Model of VPCState.wait_for_ipv6_cidr_association (lines 220 to 242),
run against a finite script of describe_vpcs responses. With exactly one
vpc in the response, the association is looked up in its set; a missing
association makes Python subscript None, raising TypeError; state
associated breaks the loop and the Ipv6CidrBlock is returned; a state other
than associated and associating raises the unexpected-state exception with
the observed value; associating reaches time.sleep(1) and raises NameError
as in wait_for_vpc_available. Without exactly one vpc, the --check
exception is raised. -/
def wait_for_ipv6_cidr_association (association_id : String) :
    List (List (List Assoc)) → M String
  | [] => raiseE .outOfPolls
  | r :: rest => do
    provCall "describe_vpcs"
    match r with
    | [association_set] =>
      match lookup_association association_id association_set with
      | none => raiseE (.typeErrorNoneAssociation association_id)
      | some association =>
        if association.state = "associated" then
          pure association.ipv6CidrBlock
        else if association.state ≠ "associating" then
          raiseE (.unexpectedAssocState association_id association.state)
        else do
          raiseE (.nameError "time")
          wait_for_ipv6_cidr_association association_id rest
    | _ => do
      let s ← getS
      raiseE (.vpcNotFound s.vpcId)

/-- Model of VPCState.realize_associate_ipv6_cidr_block (lines 244 to 264).
When an amazon-provided block is requested: associate, wait for the
association, then commit amazonProvidedIpv6CidrBlock and associationId
together in the transactional block. Otherwise: disassociate if an
associationId is persisted, then commit amazonProvidedIpv6CidrBlock alone.
The source has a single block whose second write is guarded by the same
condition, which is the same commit set per branch. -/
def realize_associate_ipv6_cidr_block (p : Provider) (config : Config)
    (allow_recreate : Bool) : M Unit := do
  connect
  let assign_cidr := config.amazonProvidedIpv6CidrBlock
  if assign_cidr then do
    provCall "associate_vpc_cidr_block"
    let association_id := p.assocId
    let _cidr ← wait_for_ipv6_cidr_association association_id p.ipv6Polls
    txnWrite ["amazonProvidedIpv6CidrBlock", "associationId"]
      (fun s => { s with
        amazonProvidedIpv6CidrBlock := some assign_cidr
        associationId := some association_id })
  else do
    let s ← getS
    if s.associationId.isSome then
      provCall "disassociate_vpc_cidr_block"
    else
      pure ()
    txnWrite ["amazonProvidedIpv6CidrBlock"]
      (fun s => { s with amazonProvidedIpv6CidrBlock := some assign_cidr })

/-- Model of VPCState.realize_update_tag (lines 266 to 271): merge of the
configured tags with the common tags happens in plain Python data (the
merge itself lives in EC2CommonState, outside this tree), then one
create_tags provider call; no persisted-state writes. -/
def realize_update_tag (allow_recreate : Bool) : M Unit := do
  connect
  provCall "create_tags"

/-- Model of VPCState.ensure_state_up (lines 120 to 140): writes the region
key outside any transactional block (line 122), connects, and if a vpcId is
persisted: on check, describe the vpc and on InvalidVpcID.NotFound recreate
it by running the create, classic-link and dns handlers with recreation
allowed, re-raising other client errors; finally, if the status is not UP,
wait for availability on the persisted vpcId. -/
def ensure_state_up (p : Provider) (config : Config) (check : Bool) : M Unit := do
  bareWrite "region" (fun s => { s with region := some config.region })
  connect
  let s ← getS
  match s.vpcId with
  | some vid =>
    if check then do
      provCall "describe_vpcs"
      match p.checkDescribe vid with
      | .notFound => do
        realize_create_vpc p config true
        realize_classic_link_change config true
        realize_dns_config config true
      | .ok => pure ()
      | .otherError code => raiseE (.providerError code)
    else
      pure ()
    let s2 ← getS
    if s2.state ≠ .up then
      wait_for_vpc_available s2.vpcId p.vpcPolls
    else
      pure ()
  | none => pure ()

/-- Model of VPCState.destroy (lines 273 to 275): run _destroy and return
True. The wipe parameter is accepted and never read, as in the source. -/
def destroy (p : Provider) (wipe : Bool) : M Bool := do
  _destroy p
  pure true

end VPCState

/-- Identifiers of the five handlers registered in VPCState.__init__. -/
inductive HandlerId
  | handle_create
  | handle_dns
  | handle_classic_link
  | handle_associate_ipv6_cidr_block
  | handle_tag_update
deriving DecidableEq, Repr

/-- Declaration data of a handler as passed to the Handler constructor of
nixops.diff: the triggering attribute keys and the list of handlers it must
run after. -/
structure Handler where
  keys : List String
  after : List HandlerId
deriving DecidableEq, Repr

/-- The five Handler registrations of VPCState.__init__ (lines 46 to 55),
with the trigger keys and after lists exactly as in the source. -/
def handlerDecl : HandlerId → Handler
  | .handle_create => ⟨["cidrBlock", "region", "instanceTenancy"], []⟩
  | .handle_dns => ⟨["enableDnsHostnames", "enableDnsSupport"], [.handle_create]⟩
  | .handle_classic_link => ⟨["enableClassicLink"], [.handle_create]⟩
  | .handle_associate_ipv6_cidr_block =>
      ⟨["amazonProvidedIpv6CidrBlock"], [.handle_create]⟩
  | .handle_tag_update => ⟨["tags"], [.handle_create]⟩

/-- Whether an event is a persisted write outside any transactional block. -/
def Event.isBareWrite : Event → Bool
  | .write _ => true
  | _ => false

/-- Whether an event is a transactional block. -/
def Event.isTxn : Event → Bool
  | .txn _ => true
  | _ => false

/-- Whether an event is a provider call. -/
def Event.isCall : Event → Bool
  | .call _ => true
  | _ => false

/-- Number of describe_vpcs polls recorded in a trace. -/
def describeCount (t : List Event) : Nat :=
  (t.filter (fun e => e == Event.call "describe_vpcs")).length

/-- The atomic-commit discipline claimed by the spec for one handler
invocation: no persisted write outside a transactional block, and at most
one transactional block. -/
def singleTxn (t : List Event) : Prop :=
  t.filter Event.isBareWrite = [] ∧ (t.filter Event.isTxn).length ≤ 1

instance (t : List Event) : Decidable (singleTxn t) := by
  unfold singleTxn; infer_instance

end NixopsVpc

namespace NixopsVpc

/-- A provider whose calls all succeed: deletes succeed, create_vpc hands
out the identifier vpc-new, the check describe reports the vpc gone, and
the first availability poll reports available. -/
def pOk : Provider where
  deleteVpc := fun _ => .ok
  createVpc := fun _ _ => "vpc-new"
  checkDescribe := fun _ => .notFound
  vpcPolls := [["available"]]
  assocId := "assoc-1"
  ipv6Polls := [[[⟨"assoc-1", "associated", "2600::/56"⟩]]]

/-- Same provider except that delete_vpc fails with the DependencyViolation
client error, the AWS answer when the vpc still contains dependent
resources. -/
def pErr : Provider := { pOk with deleteVpc := fun _ => .otherError "DependencyViolation" }

/-- A fully converged state: status UP, identifier vpc-old, every
handler-written field populated. -/
def sUp : St where
  state := .up
  vpcId := some "vpc-old"
  region := some "us-east-1"
  cidrBlock := some "10.0.0.0/16"
  instanceTenancy := some "default"
  enableDnsSupport := some true
  enableDnsHostname := none
  enableDnsHostnames := some true
  enableClassicLink := some true
  enableVpcClassicLink := none
  amazonProvidedIpv6CidrBlock := some true
  associationId := some "assoc-0"
  client := false
  vpc_id := some "vpc-old"

/-- The same populated state with status STARTING, as left by a pass
interrupted between creation and the availability wait. -/
def sStarting : St := { sUp with state := .starting }

/-- A fresh state: status MISSING, nothing persisted. -/
def sMissing : St where
  state := .missing
  vpcId := none
  region := none
  cidrBlock := none
  instanceTenancy := none
  enableDnsSupport := none
  enableDnsHostname := none
  enableDnsHostnames := none
  enableClassicLink := none
  enableVpcClassicLink := none
  amazonProvidedIpv6CidrBlock := none
  associationId := none
  client := false
  vpc_id := none

/-- A desired configuration exercising every handler field. -/
def c0 : Config where
  region := "us-east-1"
  cidrBlock := "10.0.0.0/16"
  instanceTenancy := "default"
  enableDnsSupport := true
  enableDnsHostnames := true
  enableClassicLink := false
  amazonProvidedIpv6CidrBlock := true

/-- C2: evaluation of destroy at a fully converged UP state. The destroy
effect runs and the status reaches MISSING with vpcId cleared, but the
transactional block resets the keys enableDnsHostname and
enableVpcClassicLink, which no handler ever writes, while the
handler-written keys enableDnsHostnames, enableClassicLink,
amazonProvidedIpv6CidrBlock and associationId keep their values, contrary
to the claim that every handler-written field is reset. Moreover destroy
from a STARTING state is a complete no-op rather than a transition to
MISSING. -/
theorem C2_destroy_leaves_handler_fields :
    ((VPCState.destroy pOk false sUp).result = .ok true ∧
     (VPCState.destroy pOk false sUp).st.state = .missing ∧
     (VPCState.destroy pOk false sUp).st.vpcId = none ∧
     (VPCState.destroy pOk false sUp).st.enableDnsHostnames = some true ∧
     (VPCState.destroy pOk false sUp).st.enableClassicLink = some true ∧
     (VPCState.destroy pOk false sUp).st.amazonProvidedIpv6CidrBlock = some true ∧
     (VPCState.destroy pOk false sUp).st.associationId = some "assoc-0" ∧
     (VPCState.destroy pOk false sUp).trace =
       [Event.call "delete_vpc",
        Event.txn ["state", "vpcId", "region", "cidrBlock", "instanceTenancy",
                   "enableDnsSupport", "enableDnsHostname", "enableVpcClassicLink"]]) ∧
    VPCState.destroy pOk false sStarting = ⟨sStarting, [], .ok true⟩ := by
  decide

/-- C5: evaluation of the availability waiter on the poll script with two
pending responses before an available one. The source calls time.sleep(1)
on the pending path but the module never imports time, so the first
pending response raises NameError after a single describe_vpcs poll and
the status never reaches UP, contrary to the claim that the waiter returns
successfully after exactly 3 polls. -/
theorem C5_waiter_crashes_on_pending :
    (VPCState.wait_for_vpc_available (some "vpc-0")
        [["pending"], ["pending"], ["available"]] sUp).result =
      .error (.nameError "time") ∧
    describeCount (VPCState.wait_for_vpc_available (some "vpc-0")
        [["pending"], ["pending"], ["available"]] sUp).trace = 1 ∧
    (VPCState.wait_for_vpc_available (some "vpc-0")
        [["pending"], ["pending"], ["available"]] sUp).st = sUp := by
  decide

/-- C8: destroy called on a state whose status is MISSING returns True
with an unchanged state and an empty trace, hence no provider call and no
persisted-state change. -/
theorem C8_destroy_idempotent_when_missing (p : Provider) (w : Bool) (s : St)
    (h : s.state = .missing) :
    VPCState.destroy p w s = ⟨s, [], .ok true⟩ := by
  simp [VPCState.destroy, VPCState._destroy, h]

/-- C8 witness at the concrete MISSING state and the all-success provider. -/
theorem C8_destroy_idempotent_when_missing_witness :
    sMissing.state = .missing ∧
      VPCState.destroy pOk true sMissing = ⟨sMissing, [], .ok true⟩ :=
  ⟨by decide, C8_destroy_idempotent_when_missing pOk true sMissing (by decide)⟩

/-- C9: every handler registered in VPCState.__init__ other than the
creation handler lists the creation handler in its after list, so the diff
engine, which per the spec always orders declared predecessors first, can
never order it before creation. -/
theorem C9_predecessor_declaration (h : HandlerId) (hne : h ≠ .handle_create) :
    HandlerId.handle_create ∈ (handlerDecl h).after := by
  cases h
  · exact absurd rfl hne
  all_goals decide

/-- C9 witness at the dns handler. -/
theorem C9_predecessor_declaration_witness :
    HandlerId.handle_dns ≠ HandlerId.handle_create ∧
      HandlerId.handle_create ∈ (handlerDecl .handle_dns).after :=
  ⟨by decide, C9_predecessor_declaration .handle_dns (by decide)⟩

/-- C10 counterexample: from an UP state with a provider whose delete_vpc
fails with the DependencyViolation client error, destroy re-raises the
error instead of returning True, so destroy does not return True for every
input and every starting state. -/
theorem C10_counterexample_provider_error :
    (VPCState.destroy pErr true sUp).result =
      .error (.providerError "DependencyViolation") ∧
    (VPCState.destroy pErr true sUp).result ≠ .ok true := by
  decide

/-- C10 amended: the wipe flag has no effect at all, destroy with wipe
behaves identically to destroy without it on every state and provider, and
whenever destroy returns a value rather than propagating an error of the
destroy effect, that value is True. -/
theorem C10_amended_wipe_no_effect (p : Provider) (w : Bool) (s : St) :
    VPCState.destroy p w s = VPCState.destroy p false s ∧
      ∀ b : Bool, (VPCState.destroy p w s).result = .ok b → b = true := by
  refine ⟨rfl, fun b hb => ?_⟩
  simp only [VPCState.destroy, M_bind_apply] at hb
  split at hb
  · simp at hb
  · simp [M_pure_apply] at hb
    exact hb

/-- C10 amended witness: at the all-success provider and the UP state the
returned value is True, and instantiating the amended theorem there
discharges its hypothesis with the concrete successful run. -/
theorem C10_amended_wipe_no_effect_witness :
    (VPCState.destroy pOk true sUp).result = .ok true ∧ true = true :=
  ⟨by decide, (C10_amended_wipe_no_effect pOk true sUp).2 true (by decide)⟩

end NixopsVpc

namespace NixopsVpc

/-- A provider identical to pOk except that delete_vpc reports
InvalidVpcID.NotFound, the answer when the vpc already vanished. -/
def pGone : Provider := { pOk with deleteVpc := fun _ => .notFound }

/-- C1: recreate gating of the creation handler. With the status UP and
allow_recreate not granted, realize_create_vpc raises the recreate-required
error before any provider call or persisted write, leaving the state
unchanged with an empty trace. With allow_recreate granted, under a
provider that deletes successfully, hands out a fresh identifier distinct
from the old one and reports the new vpc available on the first poll (the
waiter cannot survive a pending poll, see the C5 development), the handler
calls delete_vpc on the old resource, creates a new one and ends with
status UP and the new, distinct identifier. -/
theorem C1_recreate_gating :
    (∀ (p : Provider) (c : Config) (s : St), s.state = .up →
       VPCState.realize_create_vpc p c false s =
         ⟨s, [], .error (.recreateRequired s.vpc_id)⟩) ∧
    (∀ (p : Provider) (c : Config) (s : St) (oldId : String) (rest : List (List String)),
       s.state = .up → s.vpcId = some oldId → s.region ≠ none →
       p.deleteVpc (some oldId) = .ok →
       p.vpcPolls = ["available"] :: rest →
       p.createVpc c.cidrBlock c.instanceTenancy ≠ oldId →
       (VPCState.realize_create_vpc p c true s).result = .ok () ∧
       (VPCState.realize_create_vpc p c true s).st.state = .up ∧
       (VPCState.realize_create_vpc p c true s).st.vpcId =
         some (p.createVpc c.cidrBlock c.instanceTenancy) ∧
       (VPCState.realize_create_vpc p c true s).st.vpcId ≠ some oldId ∧
       Event.call "delete_vpc" ∈ (VPCState.realize_create_vpc p c true s).trace) := by
  constructor
  · intro p c s h
    simp [VPCState.realize_create_vpc, h]
  · intro p c s oldId rest hup hvpc hreg hdel hpolls hnew
    cases hc : s.client
    all_goals
      simp [VPCState.realize_create_vpc, VPCState._destroy, VPCState.connect,
            VPCState.update_tags_using, VPCState.wait_for_vpc_available,
            hup, hvpc, hreg, hdel, hpolls, hc, hnew]

/-- C1 witness at the converged UP state, the all-success provider and the
concrete configuration. -/
theorem C1_recreate_gating_witness :
    (sUp.state = .up ∧
      VPCState.realize_create_vpc pOk c0 false sUp =
        ⟨sUp, [], .error (.recreateRequired sUp.vpc_id)⟩) ∧
    (sUp.state = .up ∧ sUp.vpcId = some "vpc-old" ∧ sUp.region ≠ none ∧
      pOk.deleteVpc (some "vpc-old") = .ok ∧
      pOk.vpcPolls = ["available"] :: ([] : List (List String)) ∧
      pOk.createVpc c0.cidrBlock c0.instanceTenancy ≠ "vpc-old" ∧
      ((VPCState.realize_create_vpc pOk c0 true sUp).result = .ok () ∧
       (VPCState.realize_create_vpc pOk c0 true sUp).st.state = .up ∧
       (VPCState.realize_create_vpc pOk c0 true sUp).st.vpcId =
         some (pOk.createVpc c0.cidrBlock c0.instanceTenancy) ∧
       (VPCState.realize_create_vpc pOk c0 true sUp).st.vpcId ≠ some "vpc-old" ∧
       Event.call "delete_vpc" ∈ (VPCState.realize_create_vpc pOk c0 true sUp).trace)) :=
  ⟨⟨by decide, C1_recreate_gating.1 pOk c0 sUp (by decide)⟩,
   by decide, by decide, by decide, by decide, rfl, by decide,
   C1_recreate_gating.2 pOk c0 sUp "vpc-old" [] (by decide) (by decide) (by decide)
     (by decide) rfl (by decide)⟩

/-- C3: drift recovery. From a state with status UP and a persisted
identifier, a check pass in which the provider reports the vpc gone
(describe raises InvalidVpcID.NotFound, delete of the vanished vpc reports
NotFound as well), hands out a fresh identifier and reports availability on
the first poll, ends with status UP and an identifier different from the
vanished one. -/
theorem C3_drift_recovery :
    ∀ (p : Provider) (c : Config) (s : St) (oldId : String) (rest : List (List String)),
      s.state = .up → s.vpcId = some oldId →
      p.checkDescribe oldId = .notFound →
      p.deleteVpc (some oldId) = .notFound →
      p.vpcPolls = ["available"] :: rest →
      p.createVpc c.cidrBlock c.instanceTenancy ≠ oldId →
      (VPCState.ensure_state_up p c true s).result = .ok () ∧
      (VPCState.ensure_state_up p c true s).st.state = .up ∧
      (VPCState.ensure_state_up p c true s).st.vpcId =
        some (p.createVpc c.cidrBlock c.instanceTenancy) ∧
      (VPCState.ensure_state_up p c true s).st.vpcId ≠ some oldId := by
  intro p c s oldId rest hup hvpc hcheck hdel hpolls hnew
  cases hc : s.client <;> cases hcl : c.enableClassicLink <;>
    rcases hecl : s.enableClassicLink with _ | (_ | _) <;>
  simp [VPCState.ensure_state_up, VPCState.realize_create_vpc, VPCState._destroy,
        VPCState.connect, VPCState.update_tags_using, VPCState.wait_for_vpc_available,
        VPCState.realize_classic_link_change, VPCState.realize_dns_config,
        hup, hvpc, hcheck, hdel, hpolls, hc, hcl, hecl, hnew]

/-- C3 witness at the converged UP state and the provider that reports the
vpc vanished. -/
theorem C3_drift_recovery_witness :
    sUp.state = .up ∧ sUp.vpcId = some "vpc-old" ∧
    pGone.checkDescribe "vpc-old" = .notFound ∧
    pGone.deleteVpc (some "vpc-old") = .notFound ∧
    pGone.vpcPolls = ["available"] :: ([] : List (List String)) ∧
    pGone.createVpc c0.cidrBlock c0.instanceTenancy ≠ "vpc-old" ∧
    ((VPCState.ensure_state_up pGone c0 true sUp).result = .ok () ∧
     (VPCState.ensure_state_up pGone c0 true sUp).st.state = .up ∧
     (VPCState.ensure_state_up pGone c0 true sUp).st.vpcId =
       some (pGone.createVpc c0.cidrBlock c0.instanceTenancy) ∧
     (VPCState.ensure_state_up pGone c0 true sUp).st.vpcId ≠ some "vpc-old") :=
  ⟨by decide, by decide, by decide, by decide, rfl, by decide,
   C3_drift_recovery pGone c0 sUp "vpc-old" [] (by decide) (by decide) (by decide)
     (by decide) rfl (by decide)⟩

/-- C6: waiter unexpected-state failure. Whenever a waiter processes a poll
response carrying a status value that is neither the in-progress value
(pending respectively associating) nor the terminal value (available
respectively associated), it raises the unexpected-state error carrying
that observed value at that very poll, with the state unchanged and exactly
one describe call in the trace; the message conjuncts show the carried
value is interpolated into the surfaced message. A response processed with
such a value is necessarily the first poll of the loop, because a pending
or associating response never reaches a second poll (see the C5
development). -/
theorem C6_waiter_unexpected_state :
    (∀ (vid : Option String) (stv : String) (rest : List (List String)) (s : St),
       stv ≠ "available" → stv ≠ "pending" →
       VPCState.wait_for_vpc_available vid ([stv] :: rest) s =
         ⟨s, [Event.call "describe_vpcs"], .error (.unexpectedVpcState vid stv)⟩ ∧
       (VpcError.unexpectedVpcState vid stv).message =
         "vpc " ++ optStr vid ++ " is in an unexpected state " ++ stv) ∧
    (∀ (aid cidr stv : String) (rest : List (List (List Assoc))) (s : St),
       stv ≠ "associated" → stv ≠ "associating" →
       VPCState.wait_for_ipv6_cidr_association aid ([[⟨aid, stv, cidr⟩]] :: rest) s =
         ⟨s, [Event.call "describe_vpcs"], .error (.unexpectedAssocState aid stv)⟩ ∧
       (VpcError.unexpectedAssocState aid stv).message =
         "ipv6 cidr block association " ++ aid ++ " is in an unexpected state " ++ stv) := by
  constructor
  · intro vid stv rest s h1 h2
    refine ⟨?_, rfl⟩
    simp [VPCState.wait_for_vpc_available, h1, h2]
  · intro aid cidr stv rest s h1 h2
    refine ⟨?_, rfl⟩
    simp [VPCState.wait_for_ipv6_cidr_association, VPCState.lookup_association, h1, h2]

/-- C6 witness at the concrete unexpected values failed and failing. -/
theorem C6_waiter_unexpected_state_witness :
    ("failed" ≠ "available" ∧ "failed" ≠ "pending" ∧
      VPCState.wait_for_vpc_available (some "vpc-1") [["failed"]] sUp =
        ⟨sUp, [Event.call "describe_vpcs"],
          .error (.unexpectedVpcState (some "vpc-1") "failed")⟩) ∧
    ("failing" ≠ "associated" ∧ "failing" ≠ "associating" ∧
      VPCState.wait_for_ipv6_cidr_association "assoc-1"
          [[[⟨"assoc-1", "failing", "2600::/56"⟩]]] sUp =
        ⟨sUp, [Event.call "describe_vpcs"],
          .error (.unexpectedAssocState "assoc-1" "failing")⟩) :=
  ⟨⟨by decide, by decide,
    (C6_waiter_unexpected_state.1 (some "vpc-1") "failed" [] sUp
      (by decide) (by decide)).1⟩,
   ⟨by decide, by decide,
    (C6_waiter_unexpected_state.2 "assoc-1" "2600::/56" "failing" [] sUp
      (by decide) (by decide)).1⟩⟩

/-- C7: waiter not-found failure. Whenever a waiter processes a
describe_vpcs response whose vpc collection does not contain exactly one
vpc, it raises the not-found error immediately at that poll, instead of
returning or polling further, and the message of that error ends with the
directive to run a deploy with --check; both waiters build the message
from the persisted vpcId key. -/
theorem C7_waiter_not_found :
    (∀ (vid : Option String) (r : List String) (rest : List (List String)) (s : St),
       r.length ≠ 1 →
       VPCState.wait_for_vpc_available vid (r :: rest) s =
         ⟨s, [Event.call "describe_vpcs"], .error (.vpcNotFound s.vpcId)⟩) ∧
    (∀ (aid : String) (r : List (List Assoc)) (rest : List (List (List Assoc))) (s : St),
       r.length ≠ 1 →
       VPCState.wait_for_ipv6_cidr_association aid (r :: rest) s =
         ⟨s, [Event.call "describe_vpcs"], .error (.vpcNotFound s.vpcId)⟩) ∧
    (∀ v : Option String,
       (VpcError.vpcNotFound v).message =
         "could not find vpc " ++ optStr v ++ ", please run a deploy with --check") := by
  refine ⟨?_, ?_, fun v => rfl⟩
  · intro vid r rest s hlen
    match r with
    | [] => simp [VPCState.wait_for_vpc_available]
    | [a] => exact absurd rfl hlen
    | a :: b :: t => simp [VPCState.wait_for_vpc_available]
  · intro aid r rest s hlen
    match r with
    | [] => simp [VPCState.wait_for_ipv6_cidr_association]
    | [a] => exact absurd rfl hlen
    | a :: b :: t => simp [VPCState.wait_for_ipv6_cidr_association]

/-- C7 witness at empty vpc collections. -/
theorem C7_waiter_not_found_witness :
    (([] : List String).length ≠ 1 ∧
      VPCState.wait_for_vpc_available (some "vpc-1") [[]] sUp =
        ⟨sUp, [Event.call "describe_vpcs"], .error (.vpcNotFound sUp.vpcId)⟩) ∧
    (([] : List (List Assoc)).length ≠ 1 ∧
      VPCState.wait_for_ipv6_cidr_association "assoc-1" [[]] sUp =
        ⟨sUp, [Event.call "describe_vpcs"], .error (.vpcNotFound sUp.vpcId)⟩) :=
  ⟨⟨by decide, C7_waiter_not_found.1 (some "vpc-1") [] [] sUp (by decide)⟩,
   ⟨by decide, C7_waiter_not_found.2.1 "assoc-1" [] [] sUp (by decide)⟩⟩

end NixopsVpc

namespace NixopsVpc

/-- The availability waiter performs no persisted write outside a
transactional block, whatever the poll script and state. -/
theorem wait_vpc_no_bare (vid : Option String) (polls : List (List String)) (s : St) :
    (VPCState.wait_for_vpc_available vid polls s).trace.filter Event.isBareWrite = [] := by
  match polls with
  | [] => simp [VPCState.wait_for_vpc_available, Event.isBareWrite]
  | r :: rest =>
    match r with
    | [] => simp [VPCState.wait_for_vpc_available, Event.isBareWrite]
    | [stv] =>
      by_cases h1 : stv = "available" <;> by_cases h2 : stv = "pending" <;>
        simp [VPCState.wait_for_vpc_available, Event.isBareWrite, h1, h2]
    | a :: b :: t => simp [VPCState.wait_for_vpc_available, Event.isBareWrite]

/-- The ipv6 association waiter performs no bare persisted write. -/
theorem wait_ipv6_no_bare (aid : String) (polls : List (List (List Assoc))) (s : St) :
    (VPCState.wait_for_ipv6_cidr_association aid polls s).trace.filter
      Event.isBareWrite = [] := by
  match polls with
  | [] => simp [VPCState.wait_for_ipv6_cidr_association, Event.isBareWrite]
  | r :: rest =>
    match r with
    | [] => simp [VPCState.wait_for_ipv6_cidr_association, Event.isBareWrite]
    | [aset] =>
      rcases h : VPCState.lookup_association aid aset with _ | assoc
      · simp [VPCState.wait_for_ipv6_cidr_association, Event.isBareWrite, h]
      · by_cases h1 : assoc.state = "associated" <;>
          by_cases h2 : assoc.state = "associating" <;>
          simp [VPCState.wait_for_ipv6_cidr_association, Event.isBareWrite, h, h1, h2]
    | a :: b :: t => simp [VPCState.wait_for_ipv6_cidr_association, Event.isBareWrite]

/-- The ipv6 association waiter opens no transactional block. -/
theorem wait_ipv6_no_txn (aid : String) (polls : List (List (List Assoc))) (s : St) :
    (VPCState.wait_for_ipv6_cidr_association aid polls s).trace.filter
      Event.isTxn = [] := by
  match polls with
  | [] => simp [VPCState.wait_for_ipv6_cidr_association, Event.isTxn]
  | r :: rest =>
    match r with
    | [] => simp [VPCState.wait_for_ipv6_cidr_association, Event.isTxn]
    | [aset] =>
      rcases h : VPCState.lookup_association aid aset with _ | assoc
      · simp [VPCState.wait_for_ipv6_cidr_association, Event.isTxn, h]
      · by_cases h1 : assoc.state = "associated" <;>
          by_cases h2 : assoc.state = "associating" <;>
          simp [VPCState.wait_for_ipv6_cidr_association, Event.isTxn, h, h1, h2]
    | a :: b :: t => simp [VPCState.wait_for_ipv6_cidr_association, Event.isTxn]

/-- The dns handler satisfies the atomic-commit discipline. -/
theorem dns_singleTxn (c : Config) (ar : Bool) (s : St) :
    singleTxn (VPCState.realize_dns_config c ar s).trace := by
  unfold singleTxn
  cases hc : s.client <;> rcases hr : s.region with _ | r <;>
    simp [VPCState.realize_dns_config, VPCState.connect, Event.isBareWrite,
          Event.isTxn, hc, hr]

/-- The classic-link handler satisfies the atomic-commit discipline. -/
theorem classic_singleTxn (c : Config) (ar : Bool) (s : St) :
    singleTxn (VPCState.realize_classic_link_change c ar s).trace := by
  unfold singleTxn
  cases hc : s.client <;> rcases hr : s.region with _ | r <;>
    cases hcl : c.enableClassicLink <;> rcases hecl : s.enableClassicLink with _ | (_ | _) <;>
    simp [VPCState.realize_classic_link_change, VPCState.connect,
          Event.isBareWrite, Event.isTxn, hc, hr, hcl, hecl]

/-- The tag handler satisfies the atomic-commit discipline. -/
theorem tag_singleTxn (ar : Bool) (s : St) :
    singleTxn (VPCState.realize_update_tag ar s).trace := by
  unfold singleTxn
  cases hc : s.client <;> rcases hr : s.region with _ | r <;>
    simp [VPCState.realize_update_tag, VPCState.connect, Event.isBareWrite,
          Event.isTxn, hc, hr]

/-- The ipv6 association handler satisfies the atomic-commit discipline. -/
theorem ipv6_singleTxn (p : Provider) (c : Config) (ar : Bool) (s : St) :
    singleTxn (VPCState.realize_associate_ipv6_cidr_block p c ar s).trace := by
  unfold singleTxn
  cases hassign : c.amazonProvidedIpv6CidrBlock
  · cases hc : s.client <;> rcases hr : s.region with _ | r <;>
      rcases ha : s.associationId with _ | aid0 <;>
      simp [VPCState.realize_associate_ipv6_cidr_block, VPCState.connect,
            Event.isBareWrite, Event.isTxn, hc, hr, hassign, ha]
  · cases hc : s.client
    case false =>
      rcases hr : s.region with _ | r
      · simp [VPCState.realize_associate_ipv6_cidr_block, VPCState.connect,
              Event.isBareWrite, Event.isTxn, hc, hr, hassign]
      · rcases ho : VPCState.wait_for_ipv6_cidr_association p.assocId p.ipv6Polls
            { s with region := some r, client := true } with ⟨st, tr, e | a⟩
        all_goals {
          have hb : tr.filter Event.isBareWrite = [] := by
            have h := wait_ipv6_no_bare p.assocId p.ipv6Polls
              { s with region := some r, client := true }
            rw [ho] at h
            exact h
          have ht : tr.filter Event.isTxn = [] := by
            have h := wait_ipv6_no_txn p.assocId p.ipv6Polls
              { s with region := some r, client := true }
            rw [ho] at h
            exact h
          have hb2 : ∀ a ∈ tr, a.isBareWrite = false := by
            intro a ha
            simpa using List.filter_eq_nil_iff.mp hb a ha
          have ht2 : ∀ a ∈ tr, a.isTxn = false := by
            intro a ha
            simpa using List.filter_eq_nil_iff.mp ht a ha
          simp [VPCState.realize_associate_ipv6_cidr_block, VPCState.connect,
                hc, hr, hassign, ho, List.filter_append, Event.isBareWrite,
                Event.isTxn, hb, ht, hb2, ht2]
        }
    case true =>
      rcases ho : VPCState.wait_for_ipv6_cidr_association p.assocId p.ipv6Polls s
          with ⟨st, tr, e | a⟩
      all_goals {
        have hb : tr.filter Event.isBareWrite = [] := by
          have h := wait_ipv6_no_bare p.assocId p.ipv6Polls s
          rw [ho] at h
          exact h
        have ht : tr.filter Event.isTxn = [] := by
          have h := wait_ipv6_no_txn p.assocId p.ipv6Polls s
          rw [ho] at h
          exact h
        have hb2 : ∀ a ∈ tr, a.isBareWrite = false := by
          intro a ha
          simpa using List.filter_eq_nil_iff.mp hb a ha
        have ht2 : ∀ a ∈ tr, a.isTxn = false := by
          intro a ha
          simpa using List.filter_eq_nil_iff.mp ht a ha
        simp [VPCState.realize_associate_ipv6_cidr_block, VPCState.connect,
              hc, hassign, ho, List.filter_append, Event.isBareWrite,
              Event.isTxn, hb, ht, hb2, ht2]
      }

set_option maxHeartbeats 1600000 in
/-- The creation handler writes outside transactional blocks only the
region key, on every path. -/
theorem create_bare_only_region (p : Provider) (c : Config) (ar : Bool) (s : St) :
    (VPCState.realize_create_vpc p c ar s).trace.filter Event.isBareWrite = [] ∨
    (VPCState.realize_create_vpc p c ar s).trace.filter Event.isBareWrite =
      [Event.write "region"] := by
  rcases hst : s.state <;> cases har : ar <;> cases hc : s.client <;>
    rcases hr : s.region with _ | r <;>
    rcases hdel : p.deleteVpc s.vpcId with _ | _ | code <;>
    simp [VPCState.realize_create_vpc, VPCState._destroy, VPCState.connect,
          VPCState.update_tags_using, hst, har, hc, hr, hdel,
          Event.isBareWrite, List.filter_append, wait_vpc_no_bare]

/-- C4 counterexample: one invocation of the creation handler from a fresh
MISSING state performs the region write of vpc.py line 173 outside any
transactional block (and opens two blocks, its own commit and the waiter's
status commit), so not every persisted write of a handler invocation sits
in a single transactional block. -/
theorem C4_counterexample_bare_region_write :
    ¬ singleTxn (VPCState.realize_create_vpc pOk c0 false sMissing).trace := by
  decide

/-- C4 amended: the four non-creation handlers (dns, classic link, ipv6
association, tag update) each perform every persisted write inside at most
one transactional block and none outside; the creation handler performs
exactly one write outside any block, of the region key, its other writes
being inside transactional blocks. -/
theorem C4_amended_commit_discipline (p : Provider) (c : Config) (ar : Bool) (s : St) :
    singleTxn (VPCState.realize_dns_config c ar s).trace ∧
    singleTxn (VPCState.realize_classic_link_change c ar s).trace ∧
    singleTxn (VPCState.realize_associate_ipv6_cidr_block p c ar s).trace ∧
    singleTxn (VPCState.realize_update_tag ar s).trace ∧
    ((VPCState.realize_create_vpc p c ar s).trace.filter Event.isBareWrite = [] ∨
     (VPCState.realize_create_vpc p c ar s).trace.filter Event.isBareWrite =
       [Event.write "region"]) :=
  ⟨dns_singleTxn c ar s, classic_singleTxn c ar s, ipv6_singleTxn p c ar s,
   tag_singleTxn ar s, create_bare_only_region p c ar s⟩

end NixopsVpc
